import Mathlib

/-!
Verification development for the rlbox tainted-wrapper core
(`rlbox_tainted_relocatable.hpp`, `rlbox_tainted_volatile_standard.hpp`,
`rlbox_tainted_base.hpp`, `test_invoke.cpp`).

Fundamental C++ integer types are modelled as an `IntType` (signedness and
bit width); a runtime value of such a type is an `Int` lying in the type's
range.  The checked ABI conversion `detail::convert_type_fundamental` lives
in `rlbox_type_conversion.hpp`, which is not part of the inspected sources,
so it is modelled from the specification.  The two wrapper classes are
embedded as structures holding their single data member, with one Lean
function per member function.  Sandbox memory, where needed for the
view/aliasing properties, is a word-addressed map from addresses to stored
values.
-/

namespace RLBox

/-- A fundamental integer type: signedness and bit width in bits. -/
structure IntType where
  signed : Bool
  width : Nat
deriving DecidableEq

/-- Smallest representable value of the type. -/
def IntType.minVal (t : IntType) : Int :=
  if t.signed then -(2 ^ (t.width - 1)) else 0

/-- Largest representable value of the type. -/
def IntType.maxVal (t : IntType) : Int :=
  if t.signed then 2 ^ (t.width - 1) - 1 else 2 ^ t.width - 1

/-- Executable range check: does `v` fit in type `t`? -/
def IntType.fits (t : IntType) (v : Int) : Bool :=
  decide (t.minVal ≤ v) && decide (v ≤ t.maxVal)

/-- The unsigned 16-bit type. -/
def u16 : IntType := ⟨false, 16⟩

/-- The unsigned 32-bit type. -/
def u32 : IntType := ⟨false, 32⟩

/-- The unsigned 64-bit type. -/
def u64 : IntType := ⟨false, 64⟩

/-- Error reported by a failed fundamental-type conversion. -/
inductive ConvErr where
  | rangeError
deriving DecidableEq

/-- Modelled from the spec: `detail::convert_type_fundamental<TTo>` of
`rlbox_type_conversion.hpp` is not among the inspected sources.  Per the
spec, conversion of a fundamental value is a value-range check followed by a
width-adjusting cast, and it reports a range error when the value cannot be
represented in the destination type; it never silently truncates or wraps. -/
def convert_type_fundamental (tto : IntType) (v : Int) : Except ConvErr Int :=
  if tto.fits v then Except.ok v else Except.error ConvErr.rangeError

/-! ## tainted_relocatable, specialization for fundamental types

`tainted_relocatable<T, TSbx>` (fundamental specialization) stores its
payload `data` in the host representation of `T`.  `TSbxRep`, the sandbox
ABI type for `T`, is a parameter (`S : IntType`) of the operations that
convert. -/

/-- `tainted_relocatable<T, TSbx>`, fundamental specialization: a single
data member `detail::value_type_t<T> data` holding the host representation. -/
structure tainted_relocatable where
  data : Int
deriving DecidableEq

/-- `raw_host_rep()`: returns `data` unchanged. -/
def tainted_relocatable.raw_host_rep (a : tainted_relocatable) : Int :=
  a.data

/-- `raw_sandboxed_rep()`: `convert_type_fundamental` of `data` to the
sandbox ABI type `S` (= `detail::value_type_t<TSbxRep>`). -/
def tainted_relocatable.raw_sandboxed_rep (S : IntType) (a : tainted_relocatable) :
    Except ConvErr Int :=
  convert_type_fundamental S a.data

/-- `UNSAFE_unverified()`: returns `raw_host_rep()`. -/
def tainted_relocatable.UNSAFE_unverified (a : tainted_relocatable) : Int :=
  a.raw_host_rep

/-- `UNSAFE_sandboxed()`: returns `raw_sandboxed_rep()`. -/
def tainted_relocatable.UNSAFE_sandboxed (S : IntType) (a : tainted_relocatable) :
    Except ConvErr Int :=
  a.raw_sandboxed_rep S

/-- Constructor `tainted_relocatable(const T& aOther)`: `data(aOther)`. -/
def tainted_relocatable.ofRaw (v : Int) : tainted_relocatable :=
  ⟨v⟩

/-- Constructor from another tainted wrapper:
`data(aOther.raw_host_rep())`; the argument is the other wrapper's host
representation. -/
def tainted_relocatable.ofTaintedHostRep (hostRep : Int) : tainted_relocatable :=
  ⟨hostRep⟩

/-! ## tainted_relocatable, specialization for non-fundamental types

The generic fallback for a type with no generated specialization.  Its only
accessor body is `{ abort(); }`, so extraction is modelled as an `Outcome`
that is always the fatal abort. -/

/-- Result of an operation that may terminate the program instead of
returning: either a returned value or a fatal abort. -/
inductive Outcome (α : Type) where
  | ok : α → Outcome α
  | fatalAbort : Outcome α
deriving DecidableEq

/-- `tainted_relocatable<T, TSbx>`, non-fundamental specialization: the
class declares no data member. -/
structure tainted_relocatable_nonfund where
deriving DecidableEq

/-- `raw_host_rep()` of the non-fundamental specialization: the body is
`{ abort(); }`, so no value of the element type `α` is ever produced. -/
def tainted_relocatable_nonfund.raw_host_rep (α : Type)
    (_ : tainted_relocatable_nonfund) : Outcome α :=
  Outcome.fatalAbort

/-- `UNSAFE_unverified()` of the non-fundamental specialization: returns
`raw_host_rep()`. -/
def tainted_relocatable_nonfund.UNSAFE_unverified (α : Type)
    (a : tainted_relocatable_nonfund) : Outcome α :=
  a.raw_host_rep α

/-! ## tainted_volatile_standard

`tainted_volatile_standard<T, TSbx>` stores its payload `data` in the
sandbox ABI representation `TSbxRep`.  The host type `T` is a parameter
(`T : IntType`) of the operations that convert. -/

/-- `tainted_volatile_standard<T, TSbx>`: a single data member
`detail::value_type_t<TSbxRep> data` holding the sandbox representation. -/
structure tainted_volatile_standard where
  data : Int
deriving DecidableEq

/-- Default constructor: the member initializer is `data{0}`. -/
def tainted_volatile_standard.mkDefault : tainted_volatile_standard :=
  ⟨0⟩

/-- Constructor from another tainted wrapper:
`data(aOther.raw_sandbox_rep())`; the argument is the other wrapper's
checked sandbox representation (spelled `raw_sandboxed_rep` on
`tainted_relocatable`), which may fail its range check. -/
def tainted_volatile_standard.ofTaintedSandboxRep (sandboxRep : Int) :
    tainted_volatile_standard :=
  ⟨sandboxRep⟩

/-- `UNSAFE_unverified()` (fundamental-type overload):
`convert_type_fundamental<detail::value_type_t<T>>(data)`. -/
def tainted_volatile_standard.UNSAFE_unverified (T : IntType)
    (a : tainted_volatile_standard) : Except ConvErr Int :=
  convert_type_fundamental T a.data

/-- `UNSAFE_sandboxed()`: `return data;` — the stored payload, unchanged. -/
def tainted_volatile_standard.UNSAFE_sandboxed (a : tainted_volatile_standard) : Int :=
  a.data

/-- Result of running an `operator=` body: the updated object, and whether
the body executed a `return` statement yielding `*this` (`returned = true`)
or completed without any return statement (`returned = false`). -/
structure AssignResult where
  state : tainted_volatile_standard
  returned : Bool
deriving DecidableEq

/-- `operator=` from another tainted wrapper (the overload taking a
`TWrap<T, TSbx>&`): the body is exactly `data = aOther.raw_sandbox_rep();`
with no return statement, so the run ends with `returned = false`.  The
right-hand side is the other wrapper's checked sandbox representation,
which may fail its range check (modelled as propagating the error). -/
def tainted_volatile_standard.opAssign_tainted (S : IntType)
    (_ : tainted_volatile_standard) (aOther : tainted_relocatable) :
    Except ConvErr AssignResult :=
  match aOther.raw_sandboxed_rep S with
  | Except.error e => Except.error e
  | Except.ok v => Except.ok ⟨⟨v⟩, false⟩

/-- `operator=` from a raw primitive value: the body constructs
`tainted_tother_t tainted_other(aOther)`, runs `*this = tainted_other;`
(the tainted-wrapper overload, its return value discarded), then executes
`return *this;`. -/
def tainted_volatile_standard.opAssign_raw (S : IntType)
    (a : tainted_volatile_standard) (aOther : Int) :
    Except ConvErr AssignResult :=
  match a.opAssign_tainted S (tainted_relocatable.ofRaw aOther) with
  | Except.error e => Except.error e
  | Except.ok r => Except.ok ⟨r.state, true⟩

/-- The raw-value assignment as the spec words it: the required range check
of the host value against the sandbox ABI type is applied first, and only
the checked, converted value is stored; an out-of-range value is a reported
conversion error and nothing is written. -/
def assign_raw_spec (S : IntType) (_ : tainted_volatile_standard) (v : Int) :
    Except ConvErr tainted_volatile_standard :=
  match convert_type_fundamental S v with
  | Except.error e => Except.error e
  | Except.ok w => Except.ok ⟨w⟩

/-! ## Sandbox memory model

For the view/aliasing properties, sandbox memory is a word-addressed map
from addresses to the stored sandbox-representation values.  A
`tainted_volatile_standard` object is then identified with the address of
its `data` member inside that memory. -/

/-- Sandbox memory: each address holds one stored sandbox-ABI value. -/
def SbxMem : Type := Nat → Int

/-- A `tainted_volatile_standard` object viewed in place inside sandbox
memory: the address of its `data` member. -/
structure tainted_volatile_view where
  addr : Nat
deriving DecidableEq

/-- Reading the view's `data` member from the current memory. -/
def tainted_volatile_view.read (m : SbxMem) (v : tainted_volatile_view) : Int :=
  m v.addr

/-- `operator=` from a raw primitive value, run against sandbox memory: the
value is routed through `Tainted` construction and the tainted-wrapper
assignment, so the checked conversion to the sandbox ABI type `S` happens
first and only its result is stored at the view's address. -/
def tainted_volatile_view.opAssign_raw_mem (S : IntType) (m : SbxMem)
    (v : tainted_volatile_view) (w : Int) : Except ConvErr SbxMem :=
  match convert_type_fundamental S w with
  | Except.error e => Except.error e
  | Except.ok c => Except.ok (fun a => if a = v.addr then c else m a)

/-- Modelled from the spec: the host-representation accessor of
`tainted_volatile_standard` consumed by the `tainted_relocatable` copy
constructor (`data(aOther.raw_host_rep())`) is not among the inspected
sources.  Per the spec, `TaintedVolatile` becomes `Tainted` via an explicit
copy that freezes the value current at copy time into independent
host-owned storage, applying the checked ABI-to-host conversion for the
host type `T`. -/
def tainted_of_volatile (T : IntType) (m : SbxMem) (v : tainted_volatile_view) :
    Except ConvErr tainted_relocatable :=
  match convert_type_fundamental T (v.read m) with
  | Except.error e => Except.error e
  | Except.ok c => Except.ok (tainted_relocatable.ofTaintedHostRep c)

/-! ## Pointer operations

`operator*` on a `tainted_volatile_standard<T*>` casts the stored pointer
representation directly to a host pointer (`(TOpDeref*)data`) and yields
the `tainted_volatile_standard` object living there; `operator&` takes the
host address of the `data` member (`(std::add_pointer_t<T>)&data`) and
wraps it into the sandbox plugin's tainted pointer type.  The direct cast
identifies the stored sandbox pointer representation with the host address,
so the correspondence is modelled as the identity (non-negative addresses). -/

/-- The sandbox plugin's tainted pointer wrapper `tainted<T*>` produced by
`operator&`: it holds the pointer handed to its constructor. -/
structure tainted_ptr where
  addr : Nat
deriving DecidableEq

/-- `operator*` on a pointer-typed `tainted_volatile_standard`: the stored
pointer representation is read and cast directly to a pointer to the
pointee's `tainted_volatile_standard` object, which is returned by
reference — i.e. the view anchored at that address. -/
def tainted_volatile_view.opDeref (m : SbxMem) (v : tainted_volatile_view) :
    tainted_volatile_view :=
  ⟨(v.read m).toNat⟩

/-- `operator&` on a `tainted_volatile_standard`: takes the address of the
`data` member and constructs the tainted pointer wrapper from it. -/
def tainted_volatile_view.opAddrOf (v : tainted_volatile_view) : tainted_ptr :=
  ⟨v.addr⟩

/-- Modelled from the spec: the tainted pointer wrapper's dereference
(`tainted<T*>::operator*`) is not among the inspected sources.  Per the
spec, dereferencing a tainted pointer yields a `TaintedVolatile` bound to
the live sandbox address the translation layer computes for the held
pointer; with this wrapper family's identity correspondence between the
stored representation and host addresses, that is the view at the held
address. -/
def tainted_ptr.opDeref (p : tainted_ptr) : tainted_volatile_view :=
  ⟨p.addr⟩

/-! ## Call marshaling for the u16 test -/

/-- Modelled from the spec: the call-marshaling path (`sandbox_invoke` and
the `smallerabi` test sandbox of `test_include.hpp`) is not among the
inspected sources.  Per the spec, each tainted argument is lowered to the
sandbox ABI representation by the checked conversion, the backend executes
the function in the ABI's own arithmetic, and the raw ABI result is raised
back into a tainted value by the inverse checked conversion.  The sandboxed
function is `test_add_uint16_t`, whose `uint16_t` addition wraps modulo
`2 ^ 16`. -/
def sandbox_invoke_add_u16 (a b : tainted_relocatable) :
    Except ConvErr tainted_relocatable :=
  match a.raw_sandboxed_rep u16, b.raw_sandboxed_rep u16 with
  | Except.ok x, Except.ok y =>
      match convert_type_fundamental u16 ((x + y) % 2 ^ 16) with
      | Except.error e => Except.error e
      | Except.ok r => Except.ok (tainted_relocatable.ofRaw r)
  | Except.error e, _ => Except.error e
  | _, Except.error e => Except.error e

end RLBox

deriving instance DecidableEq for Except

namespace RLBox

/-! ## Theorems -/

/-- C1: for every fundamental host type `T` and every value `v` of `T` that is
also representable in the configured sandbox ABI type `S`, lowering `v` to the
sandbox ABI representation (`UNSAFE_sandboxed` / `raw_sandboxed_rep` on a
tainted wrapper holding `v`) and raising that ABI value back to the host
representation (`UNSAFE_unverified` on a `tainted_volatile_standard` holding
it) yields exactly `v`. -/
theorem roundtrip_host_sandbox_host (T S : IntType) (v : Int)
    (hT : T.fits v = true) (hS : S.fits v = true) :
    ∃ w, (tainted_relocatable.ofRaw v).UNSAFE_sandboxed S = Except.ok w ∧
      (tainted_volatile_standard.ofTaintedSandboxRep w).UNSAFE_unverified T
        = Except.ok v := by
  refine ⟨v, ?_, ?_⟩ <;>
    simp [tainted_relocatable.UNSAFE_sandboxed, tainted_relocatable.raw_sandboxed_rep,
      tainted_relocatable.ofRaw, tainted_volatile_standard.UNSAFE_unverified,
      tainted_volatile_standard.ofTaintedSandboxRep, convert_type_fundamental, hT, hS]

/-- C1 witness: the round trip at `T = uint32`, `S = uint64`, `v = 7`. -/
theorem roundtrip_host_sandbox_host_witness :
    u32.fits 7 = true ∧ u64.fits 7 = true ∧
    ∃ w, (tainted_relocatable.ofRaw 7).UNSAFE_sandboxed u64 = Except.ok w ∧
      (tainted_volatile_standard.ofTaintedSandboxRep w).UNSAFE_unverified u32
        = Except.ok 7 :=
  ⟨by decide, by decide,
    roundtrip_host_sandbox_host u32 u64 7 (by decide) (by decide)⟩

/-- C2: evaluation of the two `operator=` overloads of
`tainted_volatile_standard` at a concrete input.  The overload taking a
tainted wrapper updates `data` but its body completes without executing any
return statement (`returned = false`), contradicting its declared reference
return type and its own `@return` documentation; the overload taking a raw
primitive value does execute `return *this` (`returned = true`). -/
theorem opAssign_tainted_missing_return :
    tainted_volatile_standard.mkDefault.opAssign_tainted u32
        (tainted_relocatable.ofRaw 5)
      = Except.ok ⟨⟨5⟩, false⟩ ∧
    tainted_volatile_standard.mkDefault.opAssign_raw u32 5
      = Except.ok ⟨⟨5⟩, true⟩ := by
  constructor <;> decide

/-- C3: for a non-fundamental type with no generated specialization,
`UNSAFE_unverified` on the generic `tainted_relocatable` fallback reaches
the fatal abort and never returns a raw extracted value. -/
theorem nonfund_UNSAFE_unverified_aborts (α : Type)
    (a : tainted_relocatable_nonfund) :
    tainted_relocatable_nonfund.UNSAFE_unverified α a = Outcome.fatalAbort ∧
    ∀ x : α, tainted_relocatable_nonfund.UNSAFE_unverified α a ≠ Outcome.ok x := by
  refine ⟨rfl, fun x h => ?_⟩
  simp only [tainted_relocatable_nonfund.UNSAFE_unverified,
    tainted_relocatable_nonfund.raw_host_rep] at h
  exact Outcome.noConfusion h

/-- C3 witness: the fallback wrapper at element type `Int`. -/
theorem nonfund_UNSAFE_unverified_aborts_witness :
    tainted_relocatable_nonfund.UNSAFE_unverified Int ⟨⟩ = Outcome.fatalAbort ∧
    ∀ x : Int, tainted_relocatable_nonfund.UNSAFE_unverified Int ⟨⟩ ≠ Outcome.ok x :=
  nonfund_UNSAFE_unverified_aborts Int ⟨⟩

/-- C4: assigning a raw value `v` into a `tainted_volatile_standard` leaves
exactly the stored sandbox-ABI payload that constructing a tainted wrapper
from `v` and assigning that wrapper leaves, and both equal the spec-side
route (checked host-to-sandbox conversion, then store); a failed range check
is a reported error and nothing is stored. -/
theorem opAssign_raw_routes_through_tainted (S : IntType)
    (a : tainted_volatile_standard) (v : Int) :
    (a.opAssign_raw S v).map AssignResult.state
      = (a.opAssign_tainted S (tainted_relocatable.ofRaw v)).map AssignResult.state ∧
    (a.opAssign_raw S v).map AssignResult.state = assign_raw_spec S a v := by
  cases h : convert_type_fundamental S v <;>
    simp [tainted_volatile_standard.opAssign_raw,
      tainted_volatile_standard.opAssign_tainted,
      tainted_relocatable.raw_sandboxed_rep, tainted_relocatable.ofRaw,
      assign_raw_spec, h, Except.map]

/-- C4 witness: both routes at `S = uint16` on an in-range and an
out-of-range raw value. -/
theorem opAssign_raw_routes_through_tainted_witness :
    ((tainted_volatile_standard.mkDefault.opAssign_raw u16 9).map AssignResult.state
        = (tainted_volatile_standard.mkDefault.opAssign_tainted u16
            (tainted_relocatable.ofRaw 9)).map AssignResult.state ∧
      (tainted_volatile_standard.mkDefault.opAssign_raw u16 9).map AssignResult.state
        = assign_raw_spec u16 tainted_volatile_standard.mkDefault 9) ∧
    ((tainted_volatile_standard.mkDefault.opAssign_raw u16 70000).map AssignResult.state
        = (tainted_volatile_standard.mkDefault.opAssign_tainted u16
            (tainted_relocatable.ofRaw 70000)).map AssignResult.state ∧
      (tainted_volatile_standard.mkDefault.opAssign_raw u16 70000).map AssignResult.state
        = assign_raw_spec u16 tainted_volatile_standard.mkDefault 70000) :=
  ⟨opAssign_raw_routes_through_tainted u16 tainted_volatile_standard.mkDefault 9,
    opAssign_raw_routes_through_tainted u16 tainted_volatile_standard.mkDefault 70000⟩

/-- C5: `operator&` on a `tainted_volatile_standard` and pointer dereference
are mutual inverses absent relocation: dereferencing the tainted pointer
obtained by `operator&` yields the view anchored at the same sandbox
location, and `operator&` applied to the view obtained by `operator*` on a
pointer-typed `tainted_volatile_standard` yields a tainted pointer holding
exactly the pointer representation that was stored. -/
theorem deref_addrOf_mutual_inverses (m : SbxMem) (v vp : tainted_volatile_view) :
    (v.opAddrOf).opDeref = v ∧
    ((vp.opDeref m).opAddrOf).addr = (vp.read m).toNat := by
  constructor <;> rfl

/-- C5 witness: the two compositions at the view at address 4 over a memory
storing pointer value 11. -/
theorem deref_addrOf_mutual_inverses_witness :
    ((tainted_volatile_view.mk 4).opAddrOf).opDeref = tainted_volatile_view.mk 4 ∧
    (((tainted_volatile_view.mk 4).opDeref (fun _ => 11)).opAddrOf).addr
      = ((tainted_volatile_view.mk 4).read (fun _ => 11)).toNat :=
  deref_addrOf_mutual_inverses (fun _ => 11) (tainted_volatile_view.mk 4)
    (tainted_volatile_view.mk 4)

/-- C6: when the sandbox ABI type differs in width from the host type, the
unwrap conversion in each direction is checked: `UNSAFE_unverified` on
`tainted_volatile_standard` reports a range error when the stored (wider)
ABI value cannot be represented in the host type, and `UNSAFE_sandboxed` on
`tainted_relocatable` reports a conversion error when the host value does
not fit the narrower sandbox ABI type; neither direction silently truncates
or wraps. -/
theorem unwrap_conversions_checked (T1 S1 T2 S2 : IntType) (x v : Int)
    (hw1 : T1.width < S1.width) (hx : T1.fits x = false)
    (hw2 : S2.width < T2.width) (hv : S2.fits v = false) :
    (tainted_volatile_standard.ofTaintedSandboxRep x).UNSAFE_unverified T1
      = Except.error ConvErr.rangeError ∧
    (tainted_relocatable.ofRaw v).UNSAFE_sandboxed S2
      = Except.error ConvErr.rangeError := by
  constructor <;>
    simp [tainted_volatile_standard.UNSAFE_unverified,
      tainted_volatile_standard.ofTaintedSandboxRep,
      tainted_relocatable.UNSAFE_sandboxed, tainted_relocatable.raw_sandboxed_rep,
      tainted_relocatable.ofRaw, convert_type_fundamental, hx, hv]

/-- C6 witness: a 64-bit ABI value `2 ^ 32` feeding host `uint32`, and host
value `70000` feeding a 16-bit sandbox ABI. -/
theorem unwrap_conversions_checked_witness :
    u32.width < u64.width ∧ u32.fits (2 ^ 32) = false ∧
    u16.width < u32.width ∧ u16.fits 70000 = false ∧
    ((tainted_volatile_standard.ofTaintedSandboxRep (2 ^ 32)).UNSAFE_unverified u32
        = Except.error ConvErr.rangeError ∧
      (tainted_relocatable.ofRaw 70000).UNSAFE_sandboxed u16
        = Except.error ConvErr.rangeError) :=
  ⟨by decide, by decide, by decide, by decide,
    unwrap_conversions_checked u32 u64 u32 u16 (2 ^ 32) 70000
      (by decide) (by decide) (by decide) (by decide)⟩

/-- C7: constructing a tainted wrapper from a `tainted_volatile_standard`
view freezes the value current at copy time into independent host-owned
storage: after a later assignment through the view writes a new value `w`
into sandbox memory, the view reads `w` while the tainted copy's
`UNSAFE_unverified` still returns the value read at copy time. -/
theorem tainted_copy_frozen (T S : IntType) (m : SbxMem)
    (v : tainted_volatile_view) (w : Int)
    (hc : T.fits (v.read m) = true) (hw : S.fits w = true) :
    ∃ t m', tainted_of_volatile T m v = Except.ok t ∧
      v.opAssign_raw_mem S m w = Except.ok m' ∧
      t.UNSAFE_unverified = v.read m ∧ v.read m' = w := by
  have hc' : T.fits (m v.addr) = true := hc
  refine ⟨tainted_relocatable.ofTaintedHostRep (v.read m),
    fun a => if a = v.addr then w else m a, ?_, ?_, rfl, ?_⟩ <;>
    simp [tainted_of_volatile, tainted_volatile_view.opAssign_raw_mem,
      tainted_volatile_view.read, convert_type_fundamental, hc', hw]

/-- C7 witness: a view at address 0 over memory storing 5, overwritten with
9 through the view; the frozen copy still yields 5. -/
theorem tainted_copy_frozen_witness :
    u32.fits ((tainted_volatile_view.mk 0).read (fun _ => 5)) = true ∧
    u32.fits 9 = true ∧
    ∃ t m', tainted_of_volatile u32 (fun _ => 5) (tainted_volatile_view.mk 0)
        = Except.ok t ∧
      (tainted_volatile_view.mk 0).opAssign_raw_mem u32 (fun _ => 5) 9
        = Except.ok m' ∧
      t.UNSAFE_unverified = (tainted_volatile_view.mk 0).read (fun _ => 5) ∧
      (tainted_volatile_view.mk 0).read m' = 9 :=
  ⟨by decide, by decide,
    tainted_copy_frozen u32 u32 (fun _ => 5) (tainted_volatile_view.mk 0) 9
      (by decide) (by decide)⟩

/-- C8: invoking the sandboxed `test_add_uint16_t` with tainted arguments
`max_u16 = 65535` and `5` yields a tainted result whose unverified
extraction equals `uint16_t(max_u16 + 5)`: the sum wraps modulo `2 ^ 16`
per the ABI's own arithmetic, giving 4, not the host's wider 65540. -/
theorem invoke_add_u16_wraps :
    (sandbox_invoke_add_u16 (tainted_relocatable.ofRaw 65535)
        (tainted_relocatable.ofRaw 5)).map tainted_relocatable.UNSAFE_unverified
      = Except.ok ((65535 + 5) % 2 ^ 16) ∧
    ((65535 + 5) % 2 ^ 16 : Int) = 4 ∧ (65535 + 5 : Int) = 65540 := by
  refine ⟨?_, by decide, by decide⟩
  decide

/-- C9: `tainted_volatile_standard` stores its payload in the sandbox ABI
representation — `UNSAFE_sandboxed` returns the stored payload unchanged
with no range check, while `UNSAFE_unverified` is the checked ABI-to-host
conversion, succeeding on the payload exactly when it fits the host type —
mirroring `tainted_relocatable`, whose `UNSAFE_unverified` is the unchecked
identity on the stored host payload while `UNSAFE_sandboxed` is the checked
host-to-sandbox conversion. -/
theorem storage_rep_mirror (T S : IntType) (tv : tainted_volatile_standard)
    (tr : tainted_relocatable) :
    tv.UNSAFE_sandboxed = tv.data ∧
    (tv.UNSAFE_unverified T = Except.ok tv.data ↔ T.fits tv.data = true) ∧
    (T.fits tv.data = false →
      tv.UNSAFE_unverified T = Except.error ConvErr.rangeError) ∧
    tr.UNSAFE_unverified = tr.data ∧
    (tr.UNSAFE_sandboxed S = Except.ok tr.data ↔ S.fits tr.data = true) ∧
    (S.fits tr.data = false →
      tr.UNSAFE_sandboxed S = Except.error ConvErr.rangeError) := by
  refine ⟨rfl, ?_, ?_, rfl, ?_, ?_⟩ <;>
    simp [tainted_volatile_standard.UNSAFE_unverified,
      tainted_relocatable.UNSAFE_sandboxed, tainted_relocatable.raw_sandboxed_rep,
      convert_type_fundamental] <;>
    intro h <;> simp [h]

/-- C9 witness: the mirrored storage behaviour at host `uint16`, sandbox
ABI `uint32`, with payload `70000` (outside `uint16`, inside `uint32`). -/
theorem storage_rep_mirror_witness :
    (tainted_volatile_standard.mk 70000).UNSAFE_sandboxed = 70000 ∧
    ((tainted_volatile_standard.mk 70000).UNSAFE_unverified u16
        = Except.ok 70000 ↔ u16.fits 70000 = true) ∧
    (u16.fits 70000 = false →
      (tainted_volatile_standard.mk 70000).UNSAFE_unverified u16
        = Except.error ConvErr.rangeError) ∧
    (tainted_relocatable.mk 70000).UNSAFE_unverified = 70000 ∧
    ((tainted_relocatable.mk 70000).UNSAFE_sandboxed u32
        = Except.ok 70000 ↔ u32.fits 70000 = true) ∧
    (u32.fits 70000 = false →
      (tainted_relocatable.mk 70000).UNSAFE_sandboxed u32
        = Except.error ConvErr.rangeError) :=
  storage_rep_mirror u16 u32 (tainted_volatile_standard.mk 70000)
    (tainted_relocatable.mk 70000)

/-- C10: a default-constructed `tainted_volatile_standard` has its stored
sandbox-representation payload zero-initialized: `UNSAFE_sandboxed` on it
returns 0, and for a host type in whose range 0 lies, `UNSAFE_unverified`
returns the zero value. -/
theorem default_ctor_zero (T : IntType) (h : T.fits 0 = true) :
    tainted_volatile_standard.mkDefault.UNSAFE_sandboxed = 0 ∧
    tainted_volatile_standard.mkDefault.UNSAFE_unverified T = Except.ok 0 := by
  refine ⟨rfl, ?_⟩
  simp [tainted_volatile_standard.UNSAFE_unverified,
    tainted_volatile_standard.mkDefault, convert_type_fundamental, h]

/-- C10 witness: the default-constructed wrapper at host `uint32`. -/
theorem default_ctor_zero_witness :
    u32.fits 0 = true ∧
    (tainted_volatile_standard.mkDefault.UNSAFE_sandboxed = 0 ∧
      tainted_volatile_standard.mkDefault.UNSAFE_unverified u32 = Except.ok 0) :=
  ⟨by decide, default_ctor_zero u32 (by decide)⟩

end RLBox
